import Mathlib

/-!
Verification of the authors/books toy API servers (REST + GraphQL façades
over a shared in-memory store).  The data model and every operation are
shallow embeddings of `rest_app.py` and `graphql_app.py`: Python dicts
become records, the module-level `authors`/`books` lists become a `Store`
threaded explicitly, and each Flask handler / graphene resolver becomes a
function from the store (and its request data) to a response and the
resulting store.
-/

/-- An author record: `{"id": ..., "name": ..., "age": ...}`.
`age` is optional (`data.get("age")` may give `None`). -/
structure Author where
  id : String
  name : String
  age : Option Int
deriving Repr, DecidableEq

/-- A book record: `{"id": ..., "title": ..., "author_id": ...}`. -/
structure Book where
  id : String
  title : String
  author_id : String
deriving Repr, DecidableEq

/-- The in-process store: the module-level `authors` and `books` lists. -/
structure Store where
  authors : List Author
  books : List Book
deriving Repr, DecidableEq

/-- The initial `authors` list (identical in both source files). -/
def initialAuthors : List Author :=
  [ ⟨"1", "J.K. Rowling", some 59⟩,
    ⟨"2", "J.R.R. Tolkien", some 81⟩ ]

/-- The initial `books` list (identical in both source files). -/
def initialBooks : List Book :=
  [ ⟨"1", "Harry Potter and the Philosopher\x27s Stone", "1"⟩,
    ⟨"2", "Harry Potter and the Chamber of Secrets", "1"⟩,
    ⟨"3", "Harry Potter and the Prisoner of Azkaban", "1"⟩,
    ⟨"4", "The Hobbit", "2"⟩,
    ⟨"5", "The Lord of the Rings: The Fellowship of the Ring", "2"⟩,
    ⟨"6", "The Lord of the Rings: The Two Towers", "2"⟩,
    ⟨"7", "The Lord of the Rings: The Return of the King", "2"⟩ ]

/-- The store both apps start from. -/
def initialStore : Store := ⟨initialAuthors, initialBooks⟩

/-- `next((a for a in authors if a["id"] == author_id), None)` — first
author whose id matches, else `None`. -/
def findAuthor (authors : List Author) (author_id : String) : Option Author :=
  authors.find? (fun a => a.id == author_id)

/-- `next((b for b in books if b["id"] == book_id), None)`. -/
def findBook (books : List Book) (book_id : String) : Option Book :=
  books.find? (fun b => b.id == book_id)

namespace Rest

/-- JSON body of a REST response (each handler returns one of these
shapes to `jsonify`). -/
inductive Body where
  | authorBody (a : Author)
  | authorListBody (l : List Author)
  | bookBody (b : Book)
  | bookListBody (l : List Book)
  | bookWithAuthor (b : Book) (author : Option Author)
  | errorBody (msg : String)
deriving Repr, DecidableEq

/-- A Flask handler result: `jsonify(body), status`. -/
structure Response where
  body : Body
  status : Nat
deriving Repr, DecidableEq

/-- Request JSON for `POST /authors`; a key absent from the dict is
`none`.  (`data.get("age")` yields `None` when the key is absent, so a
present-but-null `age` and an absent `age` behave identically.) -/
structure AuthorReq where
  name : Option String
  age : Option Int
deriving Repr, DecidableEq

/-- Request JSON for `POST /books`. -/
structure BookReq where
  title : Option String
  author_id : Option String
deriving Repr, DecidableEq

/-- `GET /authors` — `jsonify(authors), 200`. -/
def get_authors (s : Store) : Response × Store :=
  (⟨.authorListBody s.authors, 200⟩, s)

/-- `GET /authors/<author_id>` — 404 when the lookup misses, else 200. -/
def get_author (s : Store) (author_id : String) : Response × Store :=
  match findAuthor s.authors author_id with
  | none => (⟨.errorBody "Author not found", 404⟩, s)
  | some a => (⟨.authorBody a, 200⟩, s)

/-- `POST /authors` — 400 when the body is missing/empty or has no
`name` (`not data or "name" not in data`); otherwise builds the new
author with id `str(len(authors) + 1)` and appends it. -/
def create_author (s : Store) (data : Option AuthorReq) : Response × Store :=
  match data with
  | none => (⟨.errorBody "Missing required field \x27name\x27", 400⟩, s)
  | some d =>
    match d.name with
    | none => (⟨.errorBody "Missing required field \x27name\x27", 400⟩, s)
    | some n =>
      let new_author : Author := ⟨toString (s.authors.length + 1), n, d.age⟩
      (⟨.authorBody new_author, 201⟩, { s with authors := s.authors ++ [new_author] })

/-- `GET /books` — `jsonify(books), 200`. -/
def get_books (s : Store) : Response × Store :=
  (⟨.bookListBody s.books, 200⟩, s)

/-- `GET /books/<book_id>` — 404 when the lookup misses; otherwise
returns `{**book, "author": author}` where `author` is the first author
matching the book's `author_id`, or `None`. -/
def get_book (s : Store) (book_id : String) : Response × Store :=
  match findBook s.books book_id with
  | none => (⟨.errorBody "Book not found", 404⟩, s)
  | some b =>
    let author := findAuthor s.authors b.author_id
    (⟨.bookWithAuthor b author, 200⟩, s)

/-- `POST /books` — 400 when the body is missing or lacks `title` or
`author_id`; 400 when no author matches `author_id`; otherwise builds
the new book with id `str(len(books) + 1)` and appends it. -/
def create_book (s : Store) (data : Option BookReq) : Response × Store :=
  match data with
  | none => (⟨.errorBody "Missing required fields \x27title\x27 or \x27author_id\x27", 400⟩, s)
  | some d =>
    match d.title, d.author_id with
    | some t, some aid =>
      match findAuthor s.authors aid with
      | none => (⟨.errorBody ("No Author found with id=" ++ aid), 400⟩, s)
      | some _ =>
        let new_book : Book := ⟨toString (s.books.length + 1), t, aid⟩
        (⟨.bookBody new_book, 201⟩, { s with books := s.books ++ [new_book] })
    | _, _ =>
      (⟨.errorBody "Missing required fields \x27title\x27 or \x27author_id\x27", 400⟩, s)

end Rest

namespace Gql

/-- `AuthorType.resolve_books` — filters the store's book list by the
author's id. -/
def resolve_books (s : Store) (author_id : String) : List Book :=
  s.books.filter (fun book => book.author_id == author_id)

/-- `BookType.resolve_author` — first author matching the book's
`author_id`, else `None`. -/
def resolve_author_of_book (s : Store) (b : Book) : Option Author :=
  findAuthor s.authors b.author_id

/-- `Query.resolve_author` — first author matching the given id. -/
def resolve_author (s : Store) (id : String) : Option Author :=
  s.authors.find? (fun author => author.id == id)

/-- `Query.resolve_all_books` — the store's book list. -/
def resolve_all_books (s : Store) : List Book :=
  s.books

/-- `CreateAuthor.mutate` — always succeeds: builds the author with id
`str(len(authors) + 1)` and appends it. -/
def createAuthor_mutate (s : Store) (name : String) (age : Option Int) :
    Author × Store :=
  let new_author : Author := ⟨toString (s.authors.length + 1), name, age⟩
  (new_author, { s with authors := s.authors ++ [new_author] })

/-- `CreateBook.mutate` — raises (surfaced as a GraphQL error entry)
when no author matches `author_id`; otherwise builds the book with id
`str(len(books) + 1)` and appends it. -/
def createBook_mutate (s : Store) (title : String) (author_id : String) :
    Except String (Book × Store) :=
  match findAuthor s.authors author_id with
  | none => .error ("No Author found with id=" ++ author_id)
  | some _ =>
    let new_book : Book := ⟨toString (s.books.length + 1), title, author_id⟩
    .ok (new_book, { s with books := s.books ++ [new_book] })

end Gql

/-- One operation of either façade (list/get/create for authors and
books over one dataset). -/
inductive Op where
  | restGetAuthors
  | restGetAuthor (id : String)
  | restCreateAuthor (data : Option Rest.AuthorReq)
  | restGetBooks
  | restGetBook (id : String)
  | restCreateBook (data : Option Rest.BookReq)
  | gqlAuthor (id : String)
  | gqlAllBooks
  | gqlCreateAuthor (name : String) (age : Option Int)
  | gqlCreateBook (title : String) (author_id : String)
deriving Repr

/-- The store resulting from one operation (a raising `createBook`
leaves the lists untouched). -/
def applyOp (s : Store) : Op → Store
  | .restGetAuthors => (Rest.get_authors s).2
  | .restGetAuthor id => (Rest.get_author s id).2
  | .restCreateAuthor data => (Rest.create_author s data).2
  | .restGetBooks => (Rest.get_books s).2
  | .restGetBook id => (Rest.get_book s id).2
  | .restCreateBook data => (Rest.create_book s data).2
  | .gqlAuthor _ => s
  | .gqlAllBooks => s
  | .gqlCreateAuthor name age => (Gql.createAuthor_mutate s name age).2
  | .gqlCreateBook title author_id =>
    match Gql.createBook_mutate s title author_id with
    | .error _ => s
    | .ok r => r.2

/-- A store reachable from the initial dataset by some sequence of
operations. -/
def Reachable (s : Store) : Prop :=
  ∃ ops : List Op, s = ops.foldl applyOp initialStore

/-- Referential integrity: every book's `author_id` is some author's
`id`. -/
def RefIntegrity (s : Store) : Prop :=
  ∀ b ∈ s.books, ∃ a ∈ s.authors, a.id = b.author_id

instance (s : Store) : Decidable (RefIntegrity s) := by
  unfold RefIntegrity
  infer_instance

/-! ### Helper lemmas -/

theorem findAuthor_eq_none {l : List Author} {aid : String} :
    findAuthor l aid = none ↔ ∀ a ∈ l, a.id ≠ aid := by
  simp [findAuthor, List.find?_eq_none]

theorem findAuthor_eq_some {l : List Author} {aid : String} {a : Author}
    (h : findAuthor l aid = some a) : a ∈ l ∧ a.id = aid :=
  ⟨List.mem_of_find?_eq_some h, by
    have := List.find?_some h
    simpa using this⟩

theorem findBook_isSome_of_mem {l : List Book} {bid : String}
    (h : ∃ b ∈ l, b.id = bid) : ∃ b, findBook l bid = some b := by
  obtain ⟨b, hb, hid⟩ := h
  have : (l.find? (fun x => x.id == bid)).isSome := by
    rw [List.find?_isSome]
    exact ⟨b, hb, by simp [hid]⟩
  obtain ⟨b0, hb0⟩ := Option.isSome_iff_exists.mp this
  exact ⟨b0, hb0⟩

theorem findBook_eq_some {l : List Book} {bid : String} {b : Book}
    (h : findBook l bid = some b) : b ∈ l ∧ b.id = bid :=
  ⟨List.mem_of_find?_eq_some h, by
    have := List.find?_some h
    simpa using this⟩

theorem refIntegrity_append_author (s : Store) (h : RefIntegrity s) (na : Author) :
    RefIntegrity ⟨s.authors ++ [na], s.books⟩ := by
  intro b hb
  obtain ⟨a, ha, hid⟩ := h b hb
  exact ⟨a, List.mem_append_left _ ha, hid⟩

theorem refIntegrity_append_book (s : Store) (h : RefIntegrity s) (nb : Book)
    (hnb : ∃ a ∈ s.authors, a.id = nb.author_id) :
    RefIntegrity ⟨s.authors, s.books ++ [nb]⟩ := by
  intro b hb
  rcases List.mem_append.mp hb with hb | hb
  · exact h b hb
  · rw [List.mem_singleton.mp hb]
    exact hnb

theorem refIntegrity_applyOp (s : Store) (op : Op) (h : RefIntegrity s) :
    RefIntegrity (applyOp s op) := by
  cases op with
  | restGetAuthors => exact h
  | restGetAuthor id =>
    simp only [applyOp, Rest.get_author]
    cases findAuthor s.authors id <;> exact h
  | restCreateAuthor data =>
    match data with
    | none => exact h
    | some ⟨dn, da⟩ =>
      simp only [applyOp, Rest.create_author]
      cases dn with
      | none => exact h
      | some n => exact refIntegrity_append_author s h _
  | restGetBooks => exact h
  | restGetBook id =>
    simp only [applyOp, Rest.get_book]
    cases findBook s.books id <;> exact h
  | restCreateBook data =>
    match data with
    | none => exact h
    | some ⟨dt, daid⟩ =>
      simp only [applyOp, Rest.create_book]
      cases dt with
      | none => exact h
      | some t =>
        cases daid with
        | none => exact h
        | some aid =>
          cases hf : findAuthor s.authors aid with
          | none => simp only [hf]; exact h
          | some a0 =>
            simp only [hf]
            obtain ⟨ha0, hid0⟩ := findAuthor_eq_some hf
            exact refIntegrity_append_book s h _ ⟨a0, ha0, hid0⟩
  | gqlAuthor id => exact h
  | gqlAllBooks => exact h
  | gqlCreateAuthor n age => exact refIntegrity_append_author s h _
  | gqlCreateBook t aid =>
    simp only [applyOp, Gql.createBook_mutate]
    cases hf : findAuthor s.authors aid with
    | none => simp only [hf]; exact h
    | some a0 =>
      simp only [hf]
      obtain ⟨ha0, hid0⟩ := findAuthor_eq_some hf
      exact refIntegrity_append_book s h _ ⟨a0, ha0, hid0⟩

theorem refIntegrity_foldl (ops : List Op) (s : Store) (h : RefIntegrity s) :
    RefIntegrity (ops.foldl applyOp s) := by
  induction ops generalizing s with
  | nil => exact h
  | cons op rest ih => exact ih _ (refIntegrity_applyOp s op h)

theorem refIntegrity_initial : RefIntegrity initialStore := by decide

/-! ### Claim theorems -/

/-- C1: for every store state, a create-book request whose `author_id`
matches no author fails in both façades — REST `POST /books` returns
status 400 with an error body, GraphQL `createBook` raises an error —
and neither the books list nor the authors list changes. -/
theorem createBook_unknown_author_fails (s : Store) (d : Rest.BookReq)
    (aid t : String) (hd : d.author_id = some aid)
    (h : ∀ a ∈ s.authors, a.id ≠ aid) :
    ((Rest.create_book s (some d)).1.status = 400
      ∧ (∃ msg, (Rest.create_book s (some d)).1.body = .errorBody msg)
      ∧ (Rest.create_book s (some d)).2 = s)
    ∧ ((∃ msg, Gql.createBook_mutate s t aid = .error msg)
      ∧ applyOp s (.gqlCreateBook t aid) = s) := by
  have hf : findAuthor s.authors aid = none := findAuthor_eq_none.mpr h
  obtain ⟨dt, daid⟩ := d
  cases hd
  refine ⟨?_, ⟨"No Author found with id=" ++ aid, by simp [Gql.createBook_mutate, hf]⟩,
    by simp [applyOp, Gql.createBook_mutate, hf]⟩
  cases dt with
  | none => exact ⟨rfl, ⟨_, rfl⟩, rfl⟩
  | some t0 =>
    refine ⟨?_, ⟨"No Author found with id=" ++ aid, ?_⟩, ?_⟩ <;>
      simp [Rest.create_book, hf]

/-- C1 witness: the failure at a concrete store and request. -/
theorem createBook_unknown_author_fails_witness :
    ((⟨some "Mistborn", some "99"⟩ : Rest.BookReq).author_id = some "99"
      ∧ ∀ a ∈ initialStore.authors, a.id ≠ "99")
    ∧ ((Rest.create_book initialStore (some ⟨some "Mistborn", some "99"⟩)).1.status = 400
      ∧ (∃ msg, (Rest.create_book initialStore
            (some ⟨some "Mistborn", some "99"⟩)).1.body = .errorBody msg)
      ∧ (Rest.create_book initialStore (some ⟨some "Mistborn", some "99"⟩)).2 = initialStore)
    ∧ ((∃ msg, Gql.createBook_mutate initialStore "Mistborn" "99" = .error msg)
      ∧ applyOp initialStore (.gqlCreateBook "Mistborn" "99") = initialStore) :=
  ⟨⟨rfl, by decide⟩,
    (createBook_unknown_author_fails initialStore ⟨some "Mistborn", some "99"⟩
      "99" "Mistborn" rfl (by decide)).1,
    (createBook_unknown_author_fails initialStore ⟨some "Mistborn", some "99"⟩
      "99" "Mistborn" rfl (by decide)).2⟩

/-- C2: for every store state, creating an author with a name present
succeeds in both façades, the returned record's id is the string form of
(number of authors before the operation, plus one), and the record is
appended to the authors list (books unchanged). -/
theorem createAuthor_id_eq_count_succ (s : Store) (d : Rest.AuthorReq)
    (n : String) (hn : d.name = some n) (age : Option Int) :
    (∃ a : Author,
      Rest.create_author s (some d) = (⟨.authorBody a, 201⟩, ⟨s.authors ++ [a], s.books⟩)
      ∧ a.id = toString (s.authors.length + 1))
    ∧ (∃ a : Author,
      Gql.createAuthor_mutate s n age = (a, ⟨s.authors ++ [a], s.books⟩)
      ∧ a.id = toString (s.authors.length + 1)) :=
  ⟨⟨⟨toString (s.authors.length + 1), n, d.age⟩, by simp [Rest.create_author, hn], rfl⟩,
   ⟨⟨toString (s.authors.length + 1), n, age⟩, rfl, rfl⟩⟩

/-- C2 witness: concrete creation on the initial store (2 authors) gets
id "3". -/
theorem createAuthor_id_eq_count_succ_witness :
    (⟨some "Brandon Sanderson", some 48⟩ : Rest.AuthorReq).name = some "Brandon Sanderson"
    ∧ ((∃ a : Author,
        Rest.create_author initialStore (some ⟨some "Brandon Sanderson", some 48⟩)
          = (⟨.authorBody a, 201⟩, ⟨initialStore.authors ++ [a], initialStore.books⟩)
        ∧ a.id = toString (initialStore.authors.length + 1))
      ∧ (∃ a : Author,
        Gql.createAuthor_mutate initialStore "Brandon Sanderson" (some 48)
          = (a, ⟨initialStore.authors ++ [a], initialStore.books⟩)
        ∧ a.id = toString (initialStore.authors.length + 1))) :=
  ⟨rfl, createAuthor_id_eq_count_succ initialStore ⟨some "Brandon Sanderson", some 48⟩
    "Brandon Sanderson" rfl (some 48)⟩

/-- C3: for every store state and every book id present in the books
list, `GET /books/{id}` returns 200 with the stored book's fields plus
an embedded `author` field holding the author whose id equals the
book's `author_id` (null when no author matches); the store is
unchanged. -/
theorem getBook_embeds_matching_author (s : Store) (bid : String)
    (h : ∃ b ∈ s.books, b.id = bid) :
    ∃ b, b ∈ s.books ∧ b.id = bid
      ∧ Rest.get_book s bid
          = (⟨.bookWithAuthor b (findAuthor s.authors b.author_id), 200⟩, s)
      ∧ (findAuthor s.authors b.author_id = none ↔ ∀ a ∈ s.authors, a.id ≠ b.author_id)
      ∧ (∀ a, findAuthor s.authors b.author_id = some a →
          a ∈ s.authors ∧ a.id = b.author_id) := by
  obtain ⟨b, hb⟩ := findBook_isSome_of_mem h
  obtain ⟨hmem, hid⟩ := findBook_eq_some hb
  exact ⟨b, hmem, hid, by simp [Rest.get_book, hb], findAuthor_eq_none,
    fun a ha => findAuthor_eq_some ha⟩

/-- C3 witness: book "4" (The Hobbit) in the initial store embeds author
"2" (J.R.R. Tolkien). -/
theorem getBook_embeds_matching_author_witness :
    (∃ b ∈ initialStore.books, b.id = "4")
    ∧ ∃ b, b ∈ initialStore.books ∧ b.id = "4"
      ∧ Rest.get_book initialStore "4"
          = (⟨.bookWithAuthor b (findAuthor initialStore.authors b.author_id), 200⟩,
             initialStore)
      ∧ (findAuthor initialStore.authors b.author_id = none
          ↔ ∀ a ∈ initialStore.authors, a.id ≠ b.author_id)
      ∧ (∀ a, findAuthor initialStore.authors b.author_id = some a →
          a ∈ initialStore.authors ∧ a.id = b.author_id) :=
  ⟨by decide, getBook_embeds_matching_author initialStore "4" (by decide)⟩

/-- C4: for every store state and author id, the GraphQL `Author.books`
field is exactly the sublist of `allBooks` whose `author_id` equals the
given id: it equals the filter of `allBooks`, it is an order-preserving
sublist of `allBooks`, and membership is characterised by the
`author_id` match. -/
theorem resolveBooks_eq_filter_allBooks (s : Store) (author_id : String) :
    Gql.resolve_books s author_id
      = (Gql.resolve_all_books s).filter (fun b => b.author_id == author_id)
    ∧ (Gql.resolve_books s author_id).Sublist (Gql.resolve_all_books s)
    ∧ ∀ b, b ∈ Gql.resolve_books s author_id
        ↔ b ∈ Gql.resolve_all_books s ∧ b.author_id = author_id := by
  refine ⟨rfl, List.filter_sublist _, fun b => ?_⟩
  simp [Gql.resolve_books, Gql.resolve_all_books, List.mem_filter]

/-- C5: referential integrity is an invariant of every store reachable
from the initial dataset by any sequence of façade operations: every
book's `author_id` is the id of some author in the store. -/
theorem reachable_refIntegrity (s : Store) (h : Reachable s) : RefIntegrity s := by
  obtain ⟨ops, rfl⟩ := h
  exact refIntegrity_foldl ops initialStore refIntegrity_initial

/-- C5 witness: a store reached by two concrete creates satisfies the
invariant. -/
theorem reachable_refIntegrity_witness :
    Reachable ([Op.gqlCreateAuthor "Brandon Sanderson" (some 48),
                Op.gqlCreateBook "Mistborn" "3"].foldl applyOp initialStore)
    ∧ RefIntegrity ([Op.gqlCreateAuthor "Brandon Sanderson" (some 48),
                Op.gqlCreateBook "Mistborn" "3"].foldl applyOp initialStore) :=
  ⟨⟨_, rfl⟩, reachable_refIntegrity _ ⟨_, rfl⟩⟩

/-- C6: the two façades are equivalent presentations of one dataset:
on the same (title, author_id) input, REST `POST /books` succeeds (201)
exactly when GraphQL `createBook` succeeds, and on success both append
the same book record yielding the same store (on failure both leave the
store unchanged); on the same (name, age) input, REST `POST /authors`
and GraphQL `createAuthor` produce the same author record and the same
resulting store. -/
theorem facades_equivalent (s : Store) (t aid n : String) (age : Option Int) :
    ((Rest.create_book s (some ⟨some t, some aid⟩)).1.status = 201
      ↔ (Gql.createBook_mutate s t aid).isOk = true)
    ∧ (match Gql.createBook_mutate s t aid with
       | .ok r => Rest.create_book s (some ⟨some t, some aid⟩) = (⟨.bookBody r.1, 201⟩, r.2)
       | .error _ => (Rest.create_book s (some ⟨some t, some aid⟩)).1.status = 400
           ∧ (Rest.create_book s (some ⟨some t, some aid⟩)).2 = s)
    ∧ Rest.create_author s (some ⟨some n, age⟩)
        = (⟨.authorBody (Gql.createAuthor_mutate s n age).1, 201⟩,
           (Gql.createAuthor_mutate s n age).2) := by
  cases hf : findAuthor s.authors aid <;>
    simp [Rest.create_book, Rest.create_author, Gql.createBook_mutate,
      Gql.createAuthor_mutate, hf, Except.isOk, Except.toBool]

/-- C7: for every store state, `GET /authors/{id}` returns 404 with an
error body exactly when no author has the given id, returns 200 with
the matching author's record otherwise, and never changes the store. -/
theorem getAuthor_404_iff_absent (s : Store) (aid : String) :
    ((Rest.get_author s aid).1.status = 404 ↔ ∀ a ∈ s.authors, a.id ≠ aid)
    ∧ ((Rest.get_author s aid).1.status = 200 ↔ ∃ a ∈ s.authors, a.id = aid)
    ∧ ((∀ a ∈ s.authors, a.id ≠ aid) →
        Rest.get_author s aid = (⟨.errorBody "Author not found", 404⟩, s))
    ∧ (∀ a, findAuthor s.authors aid = some a →
        a ∈ s.authors ∧ a.id = aid ∧ Rest.get_author s aid = (⟨.authorBody a, 200⟩, s))
    ∧ (Rest.get_author s aid).2 = s := by
  cases hf : findAuthor s.authors aid with
  | none =>
    have habs : ∀ a ∈ s.authors, a.id ≠ aid := findAuthor_eq_none.mp hf
    have hga : Rest.get_author s aid = (⟨.errorBody "Author not found", 404⟩, s) := by
      simp [Rest.get_author, hf]
    rw [hga]
    exact ⟨iff_of_true rfl habs,
      iff_of_false (by norm_num)
        (fun h => by obtain ⟨a, ha, hid⟩ := h; exact absurd hid (habs a ha)),
      fun _ => rfl, fun a ha => Option.noConfusion ha, rfl⟩
  | some a0 =>
    obtain ⟨hmem, hid⟩ := findAuthor_eq_some hf
    have hga : Rest.get_author s aid = (⟨.authorBody a0, 200⟩, s) := by
      simp [Rest.get_author, hf]
    rw [hga]
    refine ⟨iff_of_false (by norm_num) (fun habs2 => absurd hid (habs2 a0 hmem)),
      iff_of_true rfl ⟨a0, hmem, hid⟩,
      fun habs2 => absurd hid (habs2 a0 hmem),
      fun a ha => ?_, rfl⟩
    obtain rfl : a0 = a := Option.some_injective _ ha
    exact ⟨hmem, hid, rfl⟩

/-- C7 witness: lookup of the absent id "99" and the present id "1" in
the initial store. -/
theorem getAuthor_404_iff_absent_witness :
    Rest.get_author initialStore "99" = (⟨.errorBody "Author not found", 404⟩, initialStore)
    ∧ ((Rest.get_author initialStore "1").1.status = 200 ↔
        ∃ a ∈ initialStore.authors, a.id = "1") :=
  ⟨(getAuthor_404_iff_absent initialStore "99").2.2.1 (by decide),
   (getAuthor_404_iff_absent initialStore "1").2.1⟩

/-- C8: no operation mutates or deletes existing records: after any
operation of either façade the authors and books lists are the old
lists extended (by appending) with at most one new record in total, so
every pre-existing record stays at its position with its fields
unchanged. -/
theorem ops_append_only (s : Store) (op : Op) :
    ∃ la : List Author, ∃ lb : List Book,
      (applyOp s op).authors = s.authors ++ la
      ∧ (applyOp s op).books = s.books ++ lb
      ∧ la.length + lb.length ≤ 1 := by
  cases op with
  | restGetAuthors => exact ⟨[], [], by simp [applyOp, Rest.get_authors]⟩
  | restGetAuthor id =>
    refine ⟨[], [], ?_⟩
    simp only [applyOp, Rest.get_author]
    cases findAuthor s.authors id <;> simp
  | restCreateAuthor data =>
    match data with
    | none => exact ⟨[], [], by simp [applyOp, Rest.create_author]⟩
    | some ⟨dn, da⟩ =>
      cases dn with
      | none => exact ⟨[], [], by simp [applyOp, Rest.create_author]⟩
      | some n =>
        exact ⟨[⟨toString (s.authors.length + 1), n, da⟩], [],
          by simp [applyOp, Rest.create_author]⟩
  | restGetBooks => exact ⟨[], [], by simp [applyOp, Rest.get_books]⟩
  | restGetBook id =>
    refine ⟨[], [], ?_⟩
    simp only [applyOp, Rest.get_book]
    cases findBook s.books id <;> simp
  | restCreateBook data =>
    match data with
    | none => exact ⟨[], [], by simp [applyOp, Rest.create_book]⟩
    | some ⟨dt, daid⟩ =>
      cases dt with
      | none => exact ⟨[], [], by simp [applyOp, Rest.create_book]⟩
      | some t =>
        cases daid with
        | none => exact ⟨[], [], by simp [applyOp, Rest.create_book]⟩
        | some aid =>
          cases hf : findAuthor s.authors aid with
          | none => exact ⟨[], [], by simp [applyOp, Rest.create_book, hf]⟩
          | some a0 =>
            exact ⟨[], [⟨toString (s.books.length + 1), t, aid⟩],
              by simp [applyOp, Rest.create_book, hf]⟩
  | gqlAuthor id => exact ⟨[], [], by simp [applyOp]⟩
  | gqlAllBooks => exact ⟨[], [], by simp [applyOp]⟩
  | gqlCreateAuthor n age =>
    exact ⟨[⟨toString (s.authors.length + 1), n, age⟩], [],
      by simp [applyOp, Gql.createAuthor_mutate]⟩
  | gqlCreateBook t aid =>
    cases hf : findAuthor s.authors aid with
    | none => exact ⟨[], [], by simp [applyOp, Gql.createBook_mutate, hf]⟩
    | some a0 =>
      exact ⟨[], [⟨toString (s.books.length + 1), t, aid⟩],
        by simp [applyOp, Gql.createBook_mutate, hf]⟩

/-- C9: end-to-end scenario from the initial dataset (2 authors,
7 books): creating author "Brandon Sanderson" (age 48) returns 201 with
id "3"; then creating book "Mistborn" with author_id "3" returns 201
with id "8"; then `GET /books/8` returns 200 with the book and the
embedded author record with id "3". -/
theorem endToEnd_scenario :
    (Rest.create_author initialStore (some ⟨some "Brandon Sanderson", some 48⟩)).1
        = ⟨.authorBody ⟨"3", "Brandon Sanderson", some 48⟩, 201⟩
    ∧ (Rest.create_book
          (Rest.create_author initialStore (some ⟨some "Brandon Sanderson", some 48⟩)).2
          (some ⟨some "Mistborn", some "3"⟩)).1
        = ⟨.bookBody ⟨"8", "Mistborn", "3"⟩, 201⟩
    ∧ (Rest.get_book
          (Rest.create_book
            (Rest.create_author initialStore (some ⟨some "Brandon Sanderson", some 48⟩)).2
            (some ⟨some "Mistborn", some "3"⟩)).2 "8").1
        = ⟨.bookWithAuthor ⟨"8", "Mistborn", "3"⟩
            (some ⟨"3", "Brandon Sanderson", some 48⟩), 200⟩ := by
  refine ⟨rfl, rfl, rfl⟩

/-- C10: a create-author request that omits the optional age still
succeeds, and the created record carries the age field with value
null/None, in both façades. -/
theorem createAuthor_missing_age_is_null (s : Store) (d : Rest.AuthorReq)
    (n : String) (hn : d.name = some n) (ha : d.age = none) :
    (∃ a : Author,
      Rest.create_author s (some d) = (⟨.authorBody a, 201⟩, ⟨s.authors ++ [a], s.books⟩)
      ∧ a.age = none)
    ∧ (∃ a : Author,
      Gql.createAuthor_mutate s n none = (a, ⟨s.authors ++ [a], s.books⟩)
      ∧ a.age = none) :=
  ⟨⟨⟨toString (s.authors.length + 1), n, none⟩,
      by simp [Rest.create_author, hn, ← ha], rfl⟩,
   ⟨⟨toString (s.authors.length + 1), n, none⟩, rfl, rfl⟩⟩

/-- C10 witness: concrete age-less creation on the initial store. -/
theorem createAuthor_missing_age_is_null_witness :
    ((⟨some "Brandon Sanderson", none⟩ : Rest.AuthorReq).name = some "Brandon Sanderson"
      ∧ (⟨some "Brandon Sanderson", none⟩ : Rest.AuthorReq).age = none)
    ∧ ((∃ a : Author,
        Rest.create_author initialStore (some ⟨some "Brandon Sanderson", none⟩)
          = (⟨.authorBody a, 201⟩, ⟨initialStore.authors ++ [a], initialStore.books⟩)
        ∧ a.age = none)
      ∧ (∃ a : Author,
        Gql.createAuthor_mutate initialStore "Brandon Sanderson" none
          = (a, ⟨initialStore.authors ++ [a], initialStore.books⟩)
        ∧ a.age = none)) :=
  ⟨⟨rfl, rfl⟩, createAuthor_missing_age_is_null initialStore
    ⟨some "Brandon Sanderson", none⟩ "Brandon Sanderson" rfl rfl⟩
